import Mathlib

/-!
Shallow embedding of the Landsat-downloader pipeline
(`src/api/landsat_api.py`) and proofs about its claims.

Modelling conventions:
* Geometry is abstracted as a finite set of plane points (`List Pt`);
  `unary_union` is the union of the parts and `geomIntersects` tests for a
  common point.  CRS reprojection is modelled as the identity (geometries
  are given in a common reference system), since no claim depends on it.
* Network and filesystem behaviour is an explicit environment `Env`:
  the directory listing, the per-dataset-id metadata probe and the
  download / extraction outcomes are oracles; the code's control flow over
  those oracles is translated literally from the source.
* Python's `for title in titles` over a list that the loop body mutates is
  embedded with its real index-based semantics (`pyForLoop`), including the
  `titles.remove(title)` call on the error path of the source.
* Python's `str.replace("_", "0")` has a single-character pattern and
  replacement, so it is embedded as the character-wise map
  `replaceUnderscore`; `s[10:16]` is embedded as `pySlice s 10 16`
  (clipping, as Python slices do).
-/

namespace Landsat

/-- A plane point; geometries are finite sets of these. -/
abbrev Pt := Int × Int

/-- One row of the satellite grid layer: attribute `Name` and a geometry. -/
structure GridCell where
  name : String
  geom : List Pt
deriving Repr, DecidableEq

/-- `GeoSeries.unary_union`: union of all geometries of the input layer. -/
def unary_union (shp : List (List Pt)) : List Pt := shp.flatten

/-- `a.intersects(b)`: the two geometries share a point. -/
def geomIntersects (a b : List Pt) : Bool := a.any (fun p => b.contains p)

/-- Python `name.replace("_", "0")`: the pattern and the replacement are
single characters, so every underscore becomes `'0'` and every other
character is unchanged. -/
def replaceUnderscore (s : String) : String :=
  String.mk (s.data.map (fun c => if c = '_' then '0' else c))

/-- Python slice `s[a:b]` (clipping out-of-range indices). -/
def pySlice (s : String) (a b : Nat) : String :=
  String.mk ((s.data.drop a).take (b - a))

/-- `get_tile_list(satellite_grid, input_shapefile)` from
`src/api/landsat_api.py` lines 12-32: union the input layer, then collect,
in grid scan order, `row["Name"].replace("_", "0")` for every grid row
whose geometry intersects the union.  The source performs no validity
check on the input layer and defines no error for an empty one. -/
def get_tile_list (satellite_grid : List GridCell)
    (input_shapefile : List (List Pt)) : List String :=
  let single_polygon := unary_union input_shapefile
  (satellite_grid.filter (fun row => geomIntersects row.geom single_polygon)).map
    (fun row => replaceUnderscore row.name)

/-- A catalog scene record: the fields the pipeline reads. -/
structure Scene where
  display_id : String
  entity_id : String
deriving Repr, DecidableEq

/-- Outcome of the remote catalog interaction inside `landsat_search`:
either `api.search` returns a scene list, or some step of the `try` block
(login returning `None`, `api.search` raising) raises. -/
inductive SearchOutcome where
  | ok (scenes : List Scene)
  | raised
deriving Repr, DecidableEq

/-- Observable result of `landsat_search`: the Python return value
(`None` or the scene list), whether `api.logout()` ran, and the
diagnostics printed. -/
structure SearchResult where
  result : Option (List Scene)
  loggedOut : Bool
  messages : List String
deriving Repr, DecidableEq

/-- `landsat_search(...)` from `src/api/landsat_api.py` lines 80-114:
inside a `try`, log in, search, `api.logout()`; if the search found zero
scenes print a diagnostic and fall through (returning `None`), else print
the count and return the list; a bare `except` prints a failure diagnostic
and returns `None` — without reaching the `logout` call. -/
def landsat_search (outcome : SearchOutcome) : SearchResult :=
  match outcome with
  | .ok scenes =>
    if scenes.length = 0 then
      { result := none, loggedOut := true
        messages := ["Ни одного продукта не найдено"] }
    else
      { result := some scenes, loggedOut := true
        messages := ["Cцен найдено: " ++ toString scenes.length ++ "."] }
  | .raised =>
      { result := none, loggedOut := false
        messages := ["Процесс не может быть выполнен"] }

/-- Per-item status labels written into the information table
(`src/api/landsat_api.py`): `needs_download` = "необходимо загрузить",
`in_storage` = "в папке", `downloading` = "загрузка...",
`downloaded` = "загружено!", `extracted` = "загружено и разархивировано!",
`error` = "ошибка". -/
inductive ItemStatus where
  | needs_download
  | in_storage
  | downloading
  | downloaded
  | extracted
  | error
deriving Repr, DecidableEq

/-- The three hard-coded dataset-service identifiers tried by the metadata
probe (`src/api/landsat_api.py` line 182), in source order. -/
def dataset_id_list : List String :=
  ["5e83d14f30ea90a9", "5e83d14fec7cae84", "632210d4770592cf"]

/-- Observable actions of the download orchestration. -/
inductive Event where
  | eeLogin
  | checkStorage (title : String)
  | removeStaleArchive (title : String)
  | probeAttempt (datasetId : String) (productId : String)
  | setStatus (title : String) (status : ItemStatus)
  | downloadAttempt (title : String) (size : Option Nat)
  | extractAttempt (title : String)
deriving Repr, DecidableEq

/-- External behaviour the download loop interacts with: the directory
listing of `dir_downld`, the metadata probe outcome per (dataset id,
entity id), and whether `ee.download` / `tarfile` extraction succeed. -/
structure Env where
  dirContents : List String
  probe : String → String → Option Nat
  downloadOk : String → Bool
  extractOk : String → Bool

/-- The inner probe loop (`src/api/landsat_api.py` lines 185-192): try
each dataset id in order against `ee._get_fileinfo`; `break` on the first
success, fall through on an exception; `file_size` stays `None` when every
attempt fails.  Returns the probe events and the resulting `file_size`. -/
def probeLoop (env : Env) (productId : String) :
    List String → List Event × Option Nat
  | [] => ([], none)
  | id :: rest =>
    match env.probe id productId with
    | some sz => ([.probeAttempt id productId], some sz)
    | none =>
      let r := probeLoop env productId rest
      (.probeAttempt id productId :: r.1, r.2)

/-- The body of the download loop for one `title`
(`src/api/landsat_api.py` lines 164-225): storage check; otherwise delete
a stale archive, locate the scene record, run the metadata probe, mark
"загрузка...", attempt the download with the probed size, on success mark
"загружено!", extract, on success mark "загружено и разархивировано!";
any exception in the `try` block ends the item in "ошибка".  Returns the
events of the iteration and the item's final status. -/
def processItem (env : Env) (query : List Scene) (title : String) :
    List Event × ItemStatus :=
  if env.dirContents.contains title then
    ([.checkStorage title, .setStatus title .in_storage], .in_storage)
  else
    let archive_name := title ++ ".tar"
    let staleEvs : List Event :=
      if env.dirContents.contains archive_name
      then [.removeStaleArchive title] else []
    match query.find? (fun product => product.display_id == title) with
    | none =>
      ([Event.checkStorage title] ++ staleEvs ++ [.setStatus title .error],
       .error)
    | some product =>
      let pr := probeLoop env product.entity_id dataset_id_list
      let evs0 := [Event.checkStorage title] ++ staleEvs ++ pr.1
        ++ [.setStatus title .downloading, .downloadAttempt title pr.2]
      if env.downloadOk product.entity_id then
        let evs1 := evs0
          ++ [Event.setStatus title .downloaded, .extractAttempt title]
        if env.extractOk title then
          (evs1 ++ [.setStatus title .extracted], .extracted)
        else
          (evs1 ++ [.setStatus title .error], .error)
      else
        (evs0 ++ [.setStatus title .error], .error)

/-- State threaded through the download loop: the (mutable, in Python)
`titles` list, the events so far, and each processed item's final status
in processing order. -/
structure LoopState where
  titles : List String
  events : List Event
  statuses : List (String × ItemStatus)
deriving Repr, DecidableEq

/-- Python's `for title in titles:` over the list the body mutates
(`src/api/landsat_api.py` lines 163-225): an index-based iterator; at
index `i` the body runs on `titles[i]`, and on the error path
`titles.remove(title)` deletes the first occurrence of `title`, shifting
later elements left, after which the iterator still advances to `i + 1`.
The loop makes at most `titles.length` iterations, supplied as fuel. -/
def pyForLoop (env : Env) (query : List Scene) :
    Nat → Nat → LoopState → LoopState
  | 0, _, st => st
  | fuel + 1, i, st =>
    if h : i < st.titles.length then
      let title := st.titles.get ⟨i, h⟩
      let r := processItem env query title
      let titles' :=
        if r.2 = ItemStatus.error then st.titles.erase title else st.titles
      pyForLoop env query fuel (i + 1)
        { titles := titles'
          events := st.events ++ r.1
          statuses := st.statuses ++ [(title, r.2)] }
    else st

/-- The list-comprehension filter building `data_for_table`
(`src/api/landsat_api.py` lines 145-150): keep, in scan order, the scenes
whose `display_id[10:16]` equals some zone and whose `display_id` is not
in the verified set, each paired with the initial status
"необходимо загрузить". -/
def build_work_list (query : List Scene) (zones : List String)
    (verified_tiles : List String) : List (String × ItemStatus) :=
  (query.filter (fun t =>
      zones.any (fun zone => zone == pySlice t.display_id 10 16)
        && !(verified_tiles.contains t.display_id))).map
    (fun t => (t.display_id, ItemStatus.needs_download))

/-- The run-level failure of the orchestration: iterating the `None`
returned by `landsat_search` raises a `TypeError`. -/
inductive RunError where
  | noneNotIterable
deriving Repr, DecidableEq

/-- `download_landsat_images(...)` from `src/api/landsat_api.py` lines
118-228: build zones with `get_tile_list`, filter the query into the work
list (iterating `query` raises when the search returned `None`); when the
filtered list is empty return it at once (no Earth-Explorer login); else
log in to Earth Explorer and run the download loop; the final `titles`
list is returned. -/
def download_landsat_images (env : Env) (query : Option (List Scene))
    (satellite_grid : List GridCell) (input_shapefile : List (List Pt))
    (verified_tiles : List String) : Except RunError LoopState :=
  match query with
  | none => .error .noneNotIterable
  | some q =>
    let zones := get_tile_list satellite_grid input_shapefile
    let data_for_table := build_work_list q zones verified_tiles
    let titles := data_for_table.map Prod.fst
    if titles.isEmpty then
      .ok { titles := titles, events := [], statuses := [] }
    else
      pyForLoop env q titles.length 0
        { titles := titles, events := [Event.eeLogin], statuses := [] }
      |> .ok

/-! Concrete inputs used to evaluate the model on explicit runs. -/

/-- A one-cell grid whose cell covers the origin; raw name `19_030`
transforms to the tile code `190030`. -/
def demoGrid : List GridCell := [{ name := "19_030", geom := [((0 : Int), (0 : Int))] }]

/-- An area-of-interest layer consisting of the origin, intersecting the
demo grid cell. -/
def demoShp : List (List Pt) := [[((0 : Int), (0 : Int))]]

/-- A scene whose tile code `190030` matches the demo grid. -/
def sceneA : Scene := { display_id := "LC08_L1TP_190030_A", entity_id := "EA" }

/-- A second matching scene, listed after `sceneA`. -/
def sceneB : Scene := { display_id := "LC08_L1TP_190030_B", entity_id := "EB" }

/-- A two-scene catalog result: `sceneA` then `sceneB`. -/
def demoQuery : List Scene := [sceneA, sceneB]

/-- Environment in which nothing is in local storage, every metadata probe
fails, `sceneA`'s download raises and `sceneB`'s would succeed. -/
def demoEnv : Env :=
  { dirContents := []
    probe := fun _ _ => none
    downloadOk := fun pid => pid == "EB"
    extractOk := fun _ => true }

/-- Environment in which every probe fails, downloads and extractions
succeed; used for witnesses. -/
def happyEnv : Env :=
  { dirContents := []
    probe := fun _ _ => none
    downloadOk := fun _ => true
    extractOk := fun _ => true }

/-! Theorems settling the claims. -/

/-- The probe loop's resulting `file_size` is the first successful probe
in list order, `none` when every probe fails. -/
theorem probeLoop_snd_spec (env : Env) (pid : String) (ids : List String) :
    (probeLoop env pid ids).2 =
      (ids.filterMap (fun id => env.probe id pid)).head? := by
  induction ids with
  | nil => rfl
  | cons id rest ih =>
    cases h : env.probe id pid <;>
      simp [probeLoop, List.filterMap_cons, h, ih]

/-- The probe loop attempts exactly the dataset ids up to and including
the first successful one (all of them when none succeeds). -/
theorem probeLoop_fst_spec (env : Env) (pid : String) (ids : List String) :
    (probeLoop env pid ids).1 =
      ((ids.takeWhile (fun id => (env.probe id pid).isNone))
        ++ (ids.drop
            (ids.takeWhile (fun id => (env.probe id pid).isNone)).length).take 1).map
        (fun id => Event.probeAttempt id pid) := by
  induction ids with
  | nil => rfl
  | cons id rest ih =>
    cases h : env.probe id pid <;>
      simp [probeLoop, List.takeWhile_cons, h, ih]

/-- C6 counterexample: when `api.search` raises, `landsat_search` returns
through the bare `except` handler and `api.logout()` never runs, contrary
to the claim that logout also runs on the exception path. -/
theorem c6_counterexample :
    (landsat_search SearchOutcome.raised).loggedOut = false := rfl

/-- C6 (amended): the catalog client logs out after every search that
returns (with or without results); when the search itself raises, the
exception handler returns `None` without logging out. -/
theorem c6_logout_on_return (scenes : List Scene) :
    (landsat_search (SearchOutcome.ok scenes)).loggedOut = true := by
  by_cases h : scenes.length = 0 <;> simp [landsat_search, h]

/-- C7 counterexample: a search completing with zero scene records and a
failed search produce the same return value (`None`), so the caller
cannot distinguish them by the result, contrary to the claim. -/
theorem c7_counterexample :
    (landsat_search (SearchOutcome.ok [])).result =
      (landsat_search SearchOutcome.raised).result := rfl

/-- C7 (amended): a search completing with zero scene records is not an
error (the logout still runs and a dedicated diagnostic distinct from the
failure diagnostic is printed), but the function returns `None` both for
an empty result set and for a failed search, so the return value does not
distinguish the two. -/
theorem c7_empty_vs_failure :
    (landsat_search (SearchOutcome.ok [])).result = none ∧
    (landsat_search SearchOutcome.raised).result = none ∧
    (landsat_search (SearchOutcome.ok [])).loggedOut = true ∧
    (landsat_search (SearchOutcome.ok [])).messages ≠
      (landsat_search SearchOutcome.raised).messages := by
  refine ⟨rfl, rfl, rfl, ?_⟩
  decide

/-- C8 counterexample: on an empty area-of-interest layer the grid
intersector returns the empty cell list — it does not fail; the source
performs no geometry validation and defines no `InvalidGeometryError`. -/
theorem c8_counterexample :
    get_tile_list [{ name := "217_015", geom := [((0 : Int), (0 : Int))] }] [] = [] :=
  rfl

/-- C8 (amended): for every grid, an empty area-of-interest layer makes
`get_tile_list` return the empty list (no cell intersects an empty
union); no exception is raised, so callers cannot distinguish "no
intersection" from "empty input" by the result. -/
theorem c8_empty_area_returns_empty (grid : List GridCell) :
    get_tile_list grid [] = [] := by
  unfold get_tile_list
  simp [unary_union, geomIntersects]

/-- C9 counterexample: the raw cell name `123_045` is emitted as
`1230045` (the underscore becomes `0`, all other characters kept), not as
the claim's example `123045`. -/
theorem c9_counterexample :
    get_tile_list [{ name := "123_045", geom := [((0 : Int), (0 : Int))] }]
        [[((0 : Int), (0 : Int))]] = ["1230045"] ∧
    replaceUnderscore "123_045" ≠ "123045" := by
  refine ⟨rfl, ?_⟩
  decide

/-- C9 (amended): for every grid cell whose geometry intersects the
unioned area, the emitted identifier is the cell's raw name with every
underscore replaced by the digit zero and every other character unchanged
(character-wise, length preserved); e.g. raw name `123_045` becomes
`1230045`, and a six-character raw name such as `123_45` becomes
`123045`. -/
theorem c9_underscore_to_zero (grid : List GridCell) (shp : List (List Pt))
    (cell : GridCell) (hmem : cell ∈ grid)
    (hint : geomIntersects cell.geom (unary_union shp) = true) :
    replaceUnderscore cell.name ∈ get_tile_list grid shp ∧
    (∀ i : Nat, (replaceUnderscore cell.name).data.get? i =
      (cell.name.data.get? i).map (fun c => if c = '_' then '0' else c)) ∧
    replaceUnderscore "123_45" = "123045" := by
  refine ⟨?_, ?_, rfl⟩
  · exact List.mem_map.2 ⟨cell, List.mem_filter.2 ⟨hmem, hint⟩, rfl⟩
  · intro i
    simp [replaceUnderscore]

/-- C9 witness: the amended statement evaluated on the demo grid. -/
theorem c9_underscore_to_zero_witness :
    replaceUnderscore "19_030" ∈ get_tile_list demoGrid demoShp ∧
    (∀ i : Nat, (replaceUnderscore "19_030").data.get? i =
      (("19_030" : String).data.get? i).map (fun c => if c = '_' then '0' else c)) ∧
    replaceUnderscore "123_45" = "123045" :=
  c9_underscore_to_zero demoGrid demoShp
    { name := "19_030", geom := [((0 : Int), (0 : Int))] }
    (by decide) (by decide)

/-- C3: the built work list is the subsequence of the scene list (scan
order preserved) keeping a scene iff its `display_id[10:16]` is a member
of the zones and its `display_id` is not verified, every kept item
starting in status `needs_download`. -/
theorem c3_work_list_filter (q : List Scene) (zones verified : List String)
    (t : Scene) (ht : t ∈ q) :
    ((build_work_list q zones verified).map Prod.fst).Sublist
      (q.map Scene.display_id) ∧
    (∀ e ∈ build_work_list q zones verified,
      e.2 = ItemStatus.needs_download) ∧
    ((t.display_id, ItemStatus.needs_download) ∈
        build_work_list q zones verified ↔
      (pySlice t.display_id 10 16 ∈ zones ∧ t.display_id ∉ verified)) := by
  refine ⟨?_, ?_, ?_, ?_⟩
  · simp only [build_work_list, List.map_map]
    have h := (List.filter_sublist (l := q)
      (p := fun s => zones.any (fun zone => zone == pySlice s.display_id 10 16)
        && !(verified.contains s.display_id))).map
      (fun s => ((s.display_id, ItemStatus.needs_download) : String × ItemStatus))
    simpa using h.map Prod.fst
  · intro e he
    simp only [build_work_list, List.mem_map] at he
    obtain ⟨s, _, rfl⟩ := he
    rfl
  · intro hmem
    simp only [build_work_list, List.mem_map] at hmem
    obtain ⟨s, hs, heq⟩ := hmem
    have hid : s.display_id = t.display_id := congrArg Prod.fst heq
    have hp := (List.mem_filter.1 hs).2
    rw [hid] at hp
    simp only [Bool.and_eq_true, List.any_eq_true, beq_iff_eq,
      Bool.not_eq_true'] at hp
    obtain ⟨⟨z, hz, hzeq⟩, hver⟩ := hp
    refine ⟨hzeq ▸ hz, fun hmem2 => ?_⟩
    have helts : verified.contains t.display_id = true :=
      List.elem_eq_true_of_mem hmem2
    rw [helts] at hver
    exact absurd hver (by decide)
  · intro ⟨hz, hver⟩
    apply List.mem_map.2
    refine ⟨t, List.mem_filter.2 ⟨ht, ?_⟩, rfl⟩
    simp only [Bool.and_eq_true, List.any_eq_true, beq_iff_eq,
      Bool.not_eq_true']
    refine ⟨⟨pySlice t.display_id 10 16, hz, rfl⟩, ?_⟩
    exact Bool.eq_false_iff.2 (fun hc => hver (List.elem_iff.1 hc))

/-- C3 witness: the filter evaluated on the demo query. -/
theorem c3_work_list_filter_witness :
    ((build_work_list demoQuery ["190030"] []).map Prod.fst).Sublist
      (demoQuery.map Scene.display_id) ∧
    (∀ e ∈ build_work_list demoQuery ["190030"] [],
      e.2 = ItemStatus.needs_download) ∧
    ((sceneA.display_id, ItemStatus.needs_download) ∈
        build_work_list demoQuery ["190030"] [] ↔
      (pySlice sceneA.display_id 10 16 ∈ ["190030"] ∧
        sceneA.display_id ∉ ([] : List String))) :=
  c3_work_list_filter demoQuery ["190030"] [] sceneA (by decide)

/-- C4: when the filtered work list is empty, the orchestration returns
the empty list at once, with an empty event trace — in particular no
Earth-Explorer (download-service) login event occurs. -/
theorem c4_empty_worklist_no_login (env : Env) (q : List Scene)
    (grid : List GridCell) (shp : List (List Pt)) (verified : List String)
    (hempty : build_work_list q (get_tile_list grid shp) verified = []) :
    download_landsat_images env (some q) grid shp verified =
      Except.ok { titles := [], events := [], statuses := [] } ∧
    ∀ st, download_landsat_images env (some q) grid shp verified =
        Except.ok st → Event.eeLogin ∉ st.events := by
  have hrun : download_landsat_images env (some q) grid shp verified =
      Except.ok { titles := [], events := [], statuses := [] } := by
    simp only [download_landsat_images, hempty]
    rfl
  refine ⟨hrun, ?_⟩
  intro st hst
  rw [hrun] at hst
  cases hst
  simp

/-- C4 witness: a query whose single scene matches no grid cell. -/
theorem c4_empty_worklist_no_login_witness :
    (download_landsat_images happyEnv (some [sceneA]) [] [] [] =
      Except.ok { titles := [], events := [], statuses := [] } ∧
    ∀ st, download_landsat_images happyEnv (some [sceneA]) [] [] [] =
        Except.ok st → Event.eeLogin ∉ st.events) :=
  c4_empty_worklist_no_login happyEnv [sceneA] [] [] [] (by decide)

/-- C10: `landsat_search` returns `None` both when the search raised and
when it completed with zero scenes, and the orchestration applied to that
`None` fails while building the work list (iterating `None` raises)
instead of returning an empty list. -/
theorem c10_none_query_raises (env : Env) (grid : List GridCell)
    (shp : List (List Pt)) (verified : List String) :
    (landsat_search (SearchOutcome.ok [])).result = none ∧
    (landsat_search SearchOutcome.raised).result = none ∧
    download_landsat_images env none grid shp verified =
      Except.error RunError.noneNotIterable :=
  ⟨rfl, rfl, rfl⟩

/-- C5: for an item needing download, the metadata probe tries the three
fixed dataset ids in list order, stops at the first success (its result
is the first successful probe, `none` when all fail), the download is
attempted with that — possibly unknown — size, and the item's final
status does not depend on the probe outcome at all (a probe failure is
never fatal). -/
theorem c5_probe_best_effort (env : Env) (q : List Scene) (title : String)
    (product : Scene)
    (hstore : env.dirContents.contains title = false)
    (hfind : q.find? (fun p => p.display_id == title) = some product) :
    (probeLoop env product.entity_id dataset_id_list).2 =
      (dataset_id_list.filterMap
        (fun id => env.probe id product.entity_id)).head? ∧
    (probeLoop env product.entity_id dataset_id_list).1 =
      ((dataset_id_list.takeWhile
          (fun id => (env.probe id product.entity_id).isNone))
        ++ (dataset_id_list.drop
            (dataset_id_list.takeWhile
              (fun id => (env.probe id product.entity_id).isNone)).length).take 1).map
        (fun id => Event.probeAttempt id product.entity_id) ∧
    Event.downloadAttempt title (probeLoop env product.entity_id dataset_id_list).2
      ∈ (processItem env q title).1 ∧
    (processItem env q title).2 =
      (if env.downloadOk product.entity_id then
        (if env.extractOk title then ItemStatus.extracted else ItemStatus.error)
       else ItemStatus.error) := by
  refine ⟨probeLoop_snd_spec env product.entity_id dataset_id_list,
          probeLoop_fst_spec env product.entity_id dataset_id_list, ?_, ?_⟩
  · simp only [processItem, hstore, hfind]
    by_cases hst : env.dirContents.contains (title ++ ".tar") <;>
      by_cases hdl : env.downloadOk product.entity_id <;>
        by_cases hex : env.extractOk title <;>
          simp [hst, hdl, hex]
  · simp only [processItem, hstore, hfind]
    by_cases hdl : env.downloadOk product.entity_id <;>
      by_cases hex : env.extractOk title <;>
        simp [hdl, hex]

/-- C5 witness: in `happyEnv` every probe fails, yet the download of
`sceneA` is attempted with unknown size and the item extracts. -/
theorem c5_probe_best_effort_witness :
    (probeLoop happyEnv sceneA.entity_id dataset_id_list).2 =
      (dataset_id_list.filterMap
        (fun id => happyEnv.probe id sceneA.entity_id)).head? ∧
    (probeLoop happyEnv sceneA.entity_id dataset_id_list).1 =
      ((dataset_id_list.takeWhile
          (fun id => (happyEnv.probe id sceneA.entity_id).isNone))
        ++ (dataset_id_list.drop
            (dataset_id_list.takeWhile
              (fun id => (happyEnv.probe id sceneA.entity_id).isNone)).length).take 1).map
        (fun id => Event.probeAttempt id sceneA.entity_id) ∧
    Event.downloadAttempt sceneA.display_id
        (probeLoop happyEnv sceneA.entity_id dataset_id_list).2
      ∈ (processItem happyEnv demoQuery sceneA.display_id).1 ∧
    (processItem happyEnv demoQuery sceneA.display_id).2 =
      (if happyEnv.downloadOk sceneA.entity_id then
        (if happyEnv.extractOk sceneA.display_id then ItemStatus.extracted
         else ItemStatus.error)
       else ItemStatus.error) :=
  c5_probe_best_effort happyEnv demoQuery sceneA.display_id sceneA
    (by decide) (by decide)

/-- C1 evaluation at the failing input: in `demoEnv` the first work item
(`sceneA`) ends in an error, `titles.remove` shifts the list under the
iterator, and the second item (`sceneB`) is never attempted — its storage
check never happens and it receives no status — yet it is part of the
returned list. -/
theorem c1_error_skips_next_item :
    ∃ st, download_landsat_images demoEnv (some demoQuery) demoGrid demoShp [] =
        Except.ok st ∧
      Event.checkStorage sceneB.display_id ∉ st.events ∧
      sceneB.display_id ∈ st.titles ∧
      st.statuses = [(sceneA.display_id, ItemStatus.error)] :=
  ⟨_, rfl, by decide, by decide, by decide⟩

/-- C2 evaluation at the failing input: the run returns `sceneB` although
`sceneB` was never processed at all (no status was ever recorded for it),
so the returned list is not the list of ids that ended in a success
status. -/
theorem c2_success_list_has_unprocessed_id :
    ∃ st, download_landsat_images demoEnv (some demoQuery) demoGrid demoShp [] =
        Except.ok st ∧
      sceneB.display_id ∈ st.titles ∧
      st.statuses.filter (fun p => p.1 == sceneB.display_id) = [] ∧
      sceneA.display_id ∉ st.titles ∧
      st.statuses = [(sceneA.display_id, ItemStatus.error)] :=
  ⟨_, rfl, by decide, by decide, by decide, by decide⟩

end Landsat
